import Mathlib

/-!
Verification of the OAuth 2.0 PKCE authentication core of the
etsy-seller-mcp server, as a shallow embedding of the Python sources
(`oauth_manager.py`, `callback_server.py`, `server.py`) in Lean 4.

Machine-level details are modelled as follows: bytes are `Nat` values
below 256, 32-bit words are `Nat` values reduced modulo 2^32 where
overflow matters, UTC timestamps are `Nat` seconds (the ISO-8601
round-trip through `datetime.isoformat` / `fromisoformat` is an
injection, so comparing the parsed timestamps is faithful), and
fallible operations return `Option` or `Except`.
-/

namespace EtsyMCP

/-! ## URL-safe base64 without padding (`base64.urlsafe_b64encode(..).rstrip("=")`) -/

/-- The 64-character URL-safe base64 alphabet used by `base64.urlsafe_b64encode`. -/
def b64Alphabet : List Char :=
  ['A','B','C','D','E','F','G','H','I','J','K','L','M','N','O','P','Q','R','S','T',
   'U','V','W','X','Y','Z','a','b','c','d','e','f','g','h','i','j','k','l','m','n',
   'o','p','q','r','s','t','u','v','w','x','y','z','0','1','2','3','4','5','6','7',
   '8','9','-','_']

/-- Alphabet lookup for a 6-bit value. -/
def b64char (n : Nat) : Char := b64Alphabet.getD n 'A'

/-- Encode one full 3-byte group into 4 base64 characters. -/
def b64Chunk3 (a b c : Nat) : List Char :=
  [b64char (a / 4), b64char (a % 4 * 16 + b / 16), b64char (b % 16 * 4 + c / 64), b64char (c % 64)]

/-- `base64.urlsafe_b64encode` on a byte list, padding included. -/
def b64encodeBytes : List Nat → List Char
  | [] => []
  | [a] => [b64char (a / 4), b64char (a % 4 * 16), '=', '=']
  | [a, b] => [b64char (a / 4), b64char (a % 4 * 16 + b / 16), b64char (b % 16 * 4), '=']
  | a :: b :: c :: rest => b64Chunk3 a b c ++ b64encodeBytes rest

/-- Python `str.rstrip("=")`: drop every trailing `=`. -/
def rstripEq (cs : List Char) : List Char :=
  (cs.reverse.dropWhile (fun c => c == '=')).reverse

/-- `base64.urlsafe_b64encode(bs).decode("utf-8").rstrip("=")`. -/
def b64urlNoPad (bs : List Nat) : String := ⟨rstripEq (b64encodeBytes bs)⟩

/-! ## UTF-8 encoding (`str.encode("utf-8")`) -/

/-- UTF-8 bytes of a single Unicode scalar value. -/
def utf8Char (c : Char) : List Nat :=
  let n := c.toNat
  if n < 128 then [n]
  else if n < 2048 then [192 + n / 64, 128 + n % 64]
  else if n < 65536 then [224 + n / 4096, 128 + n / 64 % 64, 128 + n % 64]
  else [240 + n / 262144, 128 + n / 4096 % 64, 128 + n / 64 % 64, 128 + n % 64]

/-- UTF-8 bytes of a string. -/
def utf8Encode (s : String) : List Nat := (s.data.map utf8Char).flatten

/-! ## SHA-256 (`hashlib.sha256(..).digest()`) -/

/-- Reduce to a 32-bit word. -/
def w32 (n : Nat) : Nat := n % 4294967296

/-- Right rotation of a 32-bit word. -/
def rotr (n x : Nat) : Nat := x / 2 ^ n + x % 2 ^ n * 2 ^ (32 - n)

def bigSigma0 (x : Nat) : Nat := rotr 2 x ^^^ rotr 13 x ^^^ rotr 22 x

def bigSigma1 (x : Nat) : Nat := rotr 6 x ^^^ rotr 11 x ^^^ rotr 25 x

def smallSigma0 (x : Nat) : Nat := rotr 7 x ^^^ rotr 18 x ^^^ x / 8

def smallSigma1 (x : Nat) : Nat := rotr 17 x ^^^ rotr 19 x ^^^ x / 1024

def chFun (x y z : Nat) : Nat := x &&& y ^^^ ((x ^^^ 4294967295) &&& z)

def majFun (x y z : Nat) : Nat := x &&& y ^^^ (x &&& z) ^^^ (y &&& z)

/-- The 64 SHA-256 round constants (FIPS 180-4), written in decimal. -/
def sha256K : List Nat :=
  [1116352408, 1899447441, 3049323471, 3921009573, 961987163,
   1508970993, 2453635748, 2870763221, 3624381080, 310598401,
   607225278, 1426881987, 1925078388, 2162078206, 2614888103,
   3248222580, 3835390401, 4022224774, 264347078, 604807628,
   770255983, 1249150122, 1555081692, 1996064986, 2554220882,
   2821834349, 2952996808, 3210313671, 3336571891, 3584528711,
   113926993, 338241895, 666307205, 773529912, 1294757372,
   1396182291, 1695183700, 1986661051, 2177026350, 2456956037,
   2730485921, 2820302411, 3259730800, 3345764771, 3516065817,
   3600352804, 4094571909, 275423344, 430227734, 506948616,
   659060556, 883997877, 958139571, 1322822218, 1537002063,
   1747873779, 1955562222, 2024104815, 2227730452, 2361852424,
   2428436474, 2756734187, 3204031479, 3329325298]

/-- Big-endian 8-byte encoding of the bit length. -/
def be64 (n : Nat) : List Nat :=
  [n / 2 ^ 56 % 256, n / 2 ^ 48 % 256, n / 2 ^ 40 % 256, n / 2 ^ 32 % 256,
   n / 2 ^ 24 % 256, n / 2 ^ 16 % 256, n / 2 ^ 8 % 256, n % 256]

/-- SHA-256 padding: append `0x80`, zeros to 56 mod 64, then the 64-bit bit length. -/
def sha256pad (msg : List Nat) : List Nat :=
  msg ++ 128 :: List.replicate ((119 - msg.length % 64) % 64) 0 ++ be64 (msg.length * 8)

/-- Group bytes into big-endian 32-bit words. -/
def toWords : List Nat → List Nat
  | a :: b :: c :: d :: rest => (a * 16777216 + b * 65536 + c * 256 + d) :: toWords rest
  | _ => []

/-- Split a byte list into 64-byte blocks. -/
def chunks64 : List Nat → List (List Nat)
  | [] => []
  | a :: rest => (a :: rest.take 63) :: chunks64 (rest.drop 63)
termination_by l => l.length
decreasing_by
  simp [List.length_drop]
  omega

/-- Extend the 16 message words of one block to the 64-entry schedule. -/
def scheduleW (w16 : List Nat) : List Nat :=
  ((List.range 48).foldl
    (fun (w : Array Nat) _ =>
      let n := w.size
      w.push (w32 (w.getD (n - 16) 0 + smallSigma0 (w.getD (n - 15) 0) +
                    w.getD (n - 7) 0 + smallSigma1 (w.getD (n - 2) 0))))
    w16.toArray).toList

/-- The eight 32-bit working variables of the compression function. -/
structure Hash8 where
  a : Nat
  b : Nat
  c : Nat
  d : Nat
  e : Nat
  f : Nat
  g : Nat
  h : Nat
deriving DecidableEq, Repr

/-- Initial SHA-256 hash value (FIPS 180-4), written in decimal. -/
def sha256init : Hash8 :=
  ⟨1779033703, 3144134277, 1013904242, 2773480762,
   1359893119, 2600822924, 528734635, 1541459225⟩

/-- One compression round, consuming one (schedule word, round constant) pair. -/
def compressRound (st : Hash8) (wk : Nat × Nat) : Hash8 :=
  let t1 := w32 (st.h + bigSigma1 st.e + chFun st.e st.f st.g + wk.1 + wk.2)
  let t2 := w32 (bigSigma0 st.a + majFun st.a st.b st.c)
  ⟨w32 (t1 + t2), st.a, st.b, st.c, w32 (st.d + t1), st.e, st.f, st.g⟩

/-- Compress one 64-byte block into the running hash. -/
def compressBlock (h0 : Hash8) (block : List Nat) : Hash8 :=
  let ws := scheduleW (toWords block)
  let st := (ws.zip sha256K).foldl compressRound h0
  ⟨w32 (h0.a + st.a), w32 (h0.b + st.b), w32 (h0.c + st.c), w32 (h0.d + st.d),
   w32 (h0.e + st.e), w32 (h0.f + st.f), w32 (h0.g + st.g), w32 (h0.h + st.h)⟩

/-- Big-endian bytes of a 32-bit word. -/
def wordBytes (v : Nat) : List Nat := [v / 16777216 % 256, v / 65536 % 256, v / 256 % 256, v % 256]

/-- `hashlib.sha256(msg).digest()` as a list of 32 bytes. -/
def sha256 (msg : List Nat) : List Nat :=
  let fin := (chunks64 (sha256pad msg)).foldl compressBlock sha256init
  ([fin.a, fin.b, fin.c, fin.d, fin.e, fin.f, fin.g, fin.h].map wordBytes).flatten

/-! ## `OAuthManager.generate_pkce_pair` (oauth_manager.py lines 38-52) -/

/--
`generate_pkce_pair`, parameterised by the 32 random bytes drawn from
`secrets.token_bytes(32)`:
verifier is `base64.urlsafe_b64encode(randomBytes).decode().rstrip("=")`,
challenge is `base64.urlsafe_b64encode(sha256(verifier.encode("utf-8")).digest()).decode().rstrip("=")`.
-/
def generate_pkce_pair (randomBytes : List Nat) : String × String :=
  let code_verifier := b64urlNoPad randomBytes
  let challenge_bytes := sha256 (utf8Encode code_verifier)
  let code_challenge := b64urlNoPad challenge_bytes
  (code_verifier, code_challenge)

/-! ## `OAuthManager.get_authorization_url` (oauth_manager.py lines 54-92) -/

def AUTHORIZE_URL : String := "https://www.etsy.com/oauth/connect"

/--
Model of the expression `httpx.QueryParams(\x7bk: v\x7d).get(k)` applied to a
string value: `QueryParams` built from a dict stores each value verbatim
(`primitive_value_to_str` is the identity on `str`) and `get` returns the
stored, decoded value, so the round trip is the identity — in particular it
applies no percent-encoding.
-/
def queryParamsRoundtrip (v : String) : String := v

/-- The `"&".join([f"..." for k, v in params.items()])` query-string build. -/
def joinQueryParams (params : List (String × String)) : String :=
  String.intercalate "&" (params.map (fun kv => kv.1 ++ "=" ++ queryParamsRoundtrip kv.2))

/--
`get_authorization_url`, parameterised by the fields of the manager and the
generated PKCE challenge and state (the repo draws them from
`generate_pkce_pair` and `secrets.token_urlsafe(32)`).
-/
def get_authorization_url (api_key redirect_uri : String) (scopes : List String)
    (code_challenge state : String) : String :=
  let scope_string := String.intercalate " " scopes
  AUTHORIZE_URL ++ "?" ++ joinQueryParams
    [("response_type", "code"),
     ("client_id", api_key),
     ("redirect_uri", redirect_uri),
     ("scope", scope_string),
     ("state", state),
     ("code_challenge", code_challenge),
     ("code_challenge_method", "S256")]

/-- Hex digit for percent-encoding. -/
def pctHex (n : Nat) : Char :=
  (['0','1','2','3','4','5','6','7','8','9','A','B','C','D','E','F']).getD n '0'

/-- Percent-encode one byte. -/
def pctByte (b : Nat) : List Char := ['%', pctHex (b / 16), pctHex (b % 16)]

/-- Characters `urllib.parse.quote_plus` leaves unescaped (with `safe=""`). -/
def urlSafeChar (c : Char) : Bool :=
  c.isAlphanum || c == '_' || c == '.' || c == '-' || c == '~'

/-- `urllib.parse.quote_plus` with no extra safe characters. -/
def quotePlus (s : String) : String :=
  ⟨(s.data.map (fun c =>
      if c = ' ' then ['+']
      else if urlSafeChar c then [c]
      else ((utf8Char c).map pctByte).flatten)).flatten⟩

/--
Modelled from the spec: `build_authorization_url(api_key, redirect_uri,
scopes, challenge, state)` with every value "percent-encoded per standard URL
query encoding" (the encoding `urllib.parse.urlencode` performs). Used as the
comparison point for the percent-encoding claim about the source builder.
-/
def build_authorization_url_spec (api_key redirect_uri : String) (scopes : List String)
    (code_challenge state : String) : String :=
  let scope_string := String.intercalate " " scopes
  AUTHORIZE_URL ++ "?" ++ String.intercalate "&"
    ([("response_type", "code"),
      ("client_id", api_key),
      ("redirect_uri", redirect_uri),
      ("scope", scope_string),
      ("state", state),
      ("code_challenge", code_challenge),
      ("code_challenge_method", "S256")].map
      (fun kv => kv.1 ++ "=" ++ quotePlus kv.2))

/-! ## `CallbackHandler.do_GET` and `OAuthCallbackServer` (callback_server.py) -/

/--
Python truthiness of an optional query-parameter value: `None` and the empty
string are falsy. (With the default `parse_qs` the handler only ever sees
`none` or a non-empty string — blank values are dropped by the parser.)
-/
def truthy : Option String → Bool
  | none => false
  | some s => !(s == "")

/--
One `OAuthCallbackServer._handle_callback` record: exactly the dict
`\x7b"code": code, "state": state, "error": error\x7d` stored in
`callback_data` when the handler fires the one-shot event.
-/
structure CallbackData where
  code : Option String
  state : Option String
  error : Option String
deriving DecidableEq, Repr

/-- Which HTML page `do_GET` renders. -/
inductive Page
  | errorPage (e : String)
  | successPage
  | invalidPage
deriving DecidableEq, Repr

/-- The observable outcome of one `do_GET`: HTTP status, page, recorded result. -/
structure HandlerResponse where
  status : Nat
  page : Page
  recorded : Option CallbackData
deriving DecidableEq, Repr

/--
`CallbackHandler.do_GET`, parameterised by the `parse_qs` extraction of the
`code`, `state` and `error` parameters (`query_params.get(k, [None])[0]`).
`recorded = none` means `callback_function` was never invoked, so no result
is delivered and the waiter event is not set.
-/
def do_GET (code state error : Option String) : HandlerResponse :=
  if truthy error then
    ⟨400, .errorPage (error.getD ""), some ⟨none, none, error⟩⟩
  else if truthy code then
    ⟨200, .successPage, some ⟨code, state, none⟩⟩
  else
    ⟨400, .invalidPage, none⟩

/-! ## Keyring session store (server.py lines 45-114) -/

/--
The parsed `token_metadata` JSON object. `expires_at = none` models a JSON
object in which the `expires_at` field is absent or null/empty (every falsy
case skips the expiry check in `load_token_from_keyring`); `some t` models a
valid ISO-8601 UTC timestamp, represented as seconds.
-/
structure TokenMetadata where
  expires_at : Option Nat
deriving DecidableEq, Repr

/--
The two keyring entries under the `etsy-seller-mcp` service:
`access_token` and `token_metadata`. `none` models a missing entry.
-/
structure KeyringState where
  access_token : Option String
  token_metadata : Option TokenMetadata
deriving DecidableEq, Repr

/-- The dict returned by `load_token_from_keyring` on the found path. -/
structure LoadedToken where
  access_token : String
  expires_at : Option Nat
deriving DecidableEq, Repr

/-- `save_token_to_keyring`: overwrite both entries unconditionally. -/
def save_token_to_keyring (_st : KeyringState) (access_token : String) (expires_at : Nat) :
    KeyringState :=
  { access_token := some access_token, token_metadata := some ⟨some expires_at⟩ }

/-- `delete_token_from_keyring`: remove both entries (missing entries tolerated). -/
def delete_token_from_keyring (_st : KeyringState) : KeyringState :=
  ⟨none, none⟩

/--
`load_token_from_keyring`, with the current UTC time passed explicitly.
Returns the loaded dict (or `none`) together with the keyring state after the
call (the expired path purges as a side effect). Python truthiness is kept:
`if not access_token` treats the empty string like a missing entry, and the
expiry comparison `datetime.utcnow() >= expiry` is `exp ≤ now`.
-/
def load_token_from_keyring (now : Nat) (st : KeyringState) :
    Option LoadedToken × KeyringState :=
  match st.access_token with
  | none => (none, st)
  | some tok =>
    if tok = "" then (none, st)
    else
      match st.token_metadata with
      | none => (none, st)
      | some md =>
        match md.expires_at with
        | some exp =>
          if exp ≤ now then (none, delete_token_from_keyring st)
          else (some ⟨tok, some exp⟩, st)
        | none => (some ⟨tok, none⟩, st)

/-! ## `OAuthManager.exchange_code_for_token` (oauth_manager.py lines 94-137) -/

/-- The session token record built on a successful exchange. -/
structure TokenRecord where
  access_token : String
  expires_at : Nat
  token_type : String
deriving DecidableEq, Repr

/--
The JSON body of the token-endpoint response; `none` models an absent field.
-/
structure TokenResponseBody where
  access_token : Option String
  expires_in : Option Nat
  token_type : Option String
deriving DecidableEq, Repr

/-- The token-endpoint HTTP response. -/
structure HttpResponse where
  status : Nat
  body : TokenResponseBody
deriving DecidableEq, Repr

/--
`exchange_code_for_token`, parameterised by the HTTP response and the current
UTC time. `response.raise_for_status()` raises unless the status is a 2xx
success; `data["access_token"]` raises `KeyError` when absent;
`expires_in` defaults to 3600 and `token_type` to `"Bearer"` via `dict.get`;
`expires_at = datetime.utcnow() + timedelta(seconds=expires_in)`.
-/
def exchange_code_for_token (resp : HttpResponse) (now : Nat) : Except String TokenRecord :=
  if 200 ≤ resp.status ∧ resp.status < 300 then
    match resp.body.access_token with
    | some tok =>
      .ok ⟨tok, now + resp.body.expires_in.getD 3600, resp.body.token_type.getD "Bearer"⟩
    | none => .error "KeyError: access_token"
  else .error "HTTPStatusError"

/-! ## `connect_etsy` orchestration (server.py lines 144-259) -/

/-- What `callback_server.wait_for_callback(timeout=300)` yields: either the
one recorded result, or a `TimeoutError` when no callback was recorded. -/
inductive CallbackOutcome
  | timeout
  | delivered (d : CallbackData)
deriving DecidableEq, Repr

/-- The timeout passed to `wait_for_callback` in `connect_etsy`. -/
def connectWaitTimeoutSeconds : Nat := 300

/-- The result dict returned by `connect_etsy` (message text elided). -/
structure ConnectResult where
  success : Bool
  error : Option String
  expires_at : Option Nat
deriving DecidableEq, Repr

/-- The result of `connect_etsy` together with its observable side effects on
the listener, the exchanger, and the module-level session globals. -/
structure ConnectTrace where
  result : ConnectResult
  listenerStarted : Bool
  listenerStopped : Bool
  exchangeInvoked : Bool
  session_token : Option String
  clientInitialized : Bool
  keyringSaved : Option (String × Nat)
deriving DecidableEq, Repr

/--
`connect_etsy`, on the paths after the OAuth manager is initialised and the
listener has started, parameterised by the generated state and by what the
environment does: `outcome` is what `wait_for_callback` yields, and
`exchange` is what `exchange_code_for_token` would return if invoked.
`stop()` runs in the `finally` of the wait, so every branch below has the
listener stopped; the session globals are only assigned on the success path.
Python truthiness is kept for `callback_data.get("error")` and `if not code`;
the state check is the dict comparison `state != auth_data["state"]` where
the callback state may be `None`.
-/
def connect_etsy (generatedState : String) :
    CallbackOutcome → Except String TokenRecord → ConnectTrace
  | .timeout, _ =>
    ⟨⟨false, some "Authorization timed out. Please try again.", none⟩,
     true, true, false, none, false, none⟩
  | .delivered d, exchange =>
    if truthy d.error then
      ⟨⟨false, some ("Authorization failed: " ++ d.error.getD ""), none⟩,
       true, true, false, none, false, none⟩
    else if ¬ truthy d.code then
      ⟨⟨false, some "No authorization code received", none⟩,
       true, true, false, none, false, none⟩
    else if d.state ≠ some generatedState then
      ⟨⟨false, some "State mismatch - possible CSRF attack", none⟩,
       true, true, false, none, false, none⟩
    else
      match exchange with
      | .error msg =>
        ⟨⟨false, some ("Authorization failed: " ++ msg), none⟩,
         true, true, true, none, false, none⟩
      | .ok tok =>
        ⟨⟨true, none, some tok.expires_at⟩,
         true, true, true, some tok.access_token, true,
         some (tok.access_token, tok.expires_at)⟩

/-! ## Helper lemmas -/

theorem b64char_ne_pad (n : Nat) : b64char n ≠ '=' := by
  by_cases h : n < 64
  · have H : ∀ m, m < 64 → b64Alphabet.getD m 'A' ≠ '=' := by decide
    exact H n h
  · unfold b64char
    rw [List.getD_eq_default]
    · decide
    · have hlen : b64Alphabet.length = 64 := by decide
      omega

theorem b64char_beq_pad (n : Nat) : (b64char n == '=') = false := by
  simpa using b64char_ne_pad n

theorem dropWhile_append_of_ne_nil (p : Char → Bool) (l₁ l₂ : List Char)
    (h : l₁.dropWhile p ≠ []) : (l₁ ++ l₂).dropWhile p = l₁.dropWhile p ++ l₂ := by
  induction l₁ with
  | nil => simp [List.dropWhile] at h
  | cons a t ih =>
    by_cases hp : p a
    · simp only [List.dropWhile_cons, hp, if_true] at h ⊢
      simpa [hp] using ih h
    · simp [List.dropWhile_cons, hp]

theorem rstripEq_append (xs ys : List Char) (h : rstripEq ys ≠ []) :
    rstripEq (xs ++ ys) = xs ++ rstripEq ys := by
  have h2 : ys.reverse.dropWhile (fun c => c == '=') ≠ [] := by
    intro hc
    apply h
    unfold rstripEq
    rw [hc]
    rfl
  unfold rstripEq
  rw [List.reverse_append, dropWhile_append_of_ne_nil _ _ _ h2, List.reverse_append,
    List.reverse_reverse]

theorem length_b64encodeBytes (bs : List Nat) :
    (b64encodeBytes bs).length = (bs.length + 2) / 3 * 4 := by
  induction bs using b64encodeBytes.induct
  all_goals simp [b64encodeBytes, b64Chunk3, *]
  all_goals omega

theorem length_rstrip_b64 (bs : List Nat) (h : bs.length % 3 = 2) :
    (rstripEq (b64encodeBytes bs)).length = bs.length / 3 * 4 + 3 := by
  induction bs using b64encodeBytes.induct with
  | case1 => simp at h
  | case2 a => simp at h
  | case3 a b =>
    simp [b64encodeBytes, rstripEq, List.dropWhile, b64char_beq_pad]
  | case4 a b c rest ih =>
    have hrest : rest.length % 3 = 2 := by
      simp at h
      omega
    have hlen := ih hrest
    have hne : rstripEq (b64encodeBytes rest) ≠ [] := by
      intro hc
      rw [hc] at hlen
      simp at hlen
    rw [show b64encodeBytes (a :: b :: c :: rest) = b64Chunk3 a b c ++ b64encodeBytes rest
        from rfl,
      rstripEq_append _ _ hne]
    simp [b64Chunk3, hlen]
    omega

theorem length_b64urlNoPad_of_32 (bs : List Nat) (h : bs.length = 32) :
    (b64urlNoPad bs).length = 43 := by
  have h2 : bs.length % 3 = 2 := by omega
  have h3 := length_rstrip_b64 bs h2
  rw [h] at h3
  unfold b64urlNoPad
  simpa [String.length] using h3

theorem authorization_failed_ne_missing_code (s : String) :
    ("Authorization failed: " ++ s) ≠ "No authorization code received" := by
  intro h
  have hd : ("Authorization failed: ").data ++ s.data =
      ("No authorization code received").data := by
    rw [String.congr_append] at h
    exact congrArg String.data h
  have h1 : (("Authorization failed: ").data ++ s.data).head? = some 'A' := by
    have he : ("Authorization failed: ").data = 'A' :: ("uthorization failed: ").data := by
      decide
    rw [he]
    rfl
  rw [hd] at h1
  have h2 : (("No authorization code received").data).head? = some 'N' := by decide
  rw [h2] at h1
  exact absurd h1 (by decide)

theorem connect_etsy_timeout (genState : String) (exchange : Except String TokenRecord) :
    connect_etsy genState .timeout exchange =
      ⟨⟨false, some "Authorization timed out. Please try again.", none⟩,
       true, true, false, none, false, none⟩ := rfl

theorem connect_etsy_provider_error (genState : String) (d : CallbackData)
    (exchange : Except String TokenRecord) (h : truthy d.error = true) :
    connect_etsy genState (.delivered d) exchange =
      ⟨⟨false, some ("Authorization failed: " ++ d.error.getD ""), none⟩,
       true, true, false, none, false, none⟩ := by
  simp only [connect_etsy]
  rw [if_pos h]

theorem connect_etsy_missing_code (genState : String) (d : CallbackData)
    (exchange : Except String TokenRecord) (h1 : truthy d.error = false)
    (h2 : truthy d.code = false) :
    connect_etsy genState (.delivered d) exchange =
      ⟨⟨false, some "No authorization code received", none⟩,
       true, true, false, none, false, none⟩ := by
  simp only [connect_etsy]
  rw [if_neg (by simp [h1]), if_pos (by simp [h2])]

theorem connect_etsy_state_mismatch (genState : String) (d : CallbackData)
    (exchange : Except String TokenRecord) (h1 : truthy d.error = false)
    (h2 : truthy d.code = true) (h3 : d.state ≠ some genState) :
    connect_etsy genState (.delivered d) exchange =
      ⟨⟨false, some "State mismatch - possible CSRF attack", none⟩,
       true, true, false, none, false, none⟩ := by
  simp only [connect_etsy]
  rw [if_neg (by simp [h1]), if_neg (by simp [h2]), if_pos h3]

theorem connect_etsy_exchange_error (genState : String) (d : CallbackData) (msg : String)
    (h1 : truthy d.error = false) (h2 : truthy d.code = true)
    (h3 : d.state = some genState) :
    connect_etsy genState (.delivered d) (.error msg) =
      ⟨⟨false, some ("Authorization failed: " ++ msg), none⟩,
       true, true, true, none, false, none⟩ := by
  simp only [connect_etsy]
  rw [if_neg (by simp [h1]), if_neg (by simp [h2]), if_neg (by simp [h3])]

theorem connect_etsy_exchange_ok (genState : String) (d : CallbackData) (tok : TokenRecord)
    (h1 : truthy d.error = false) (h2 : truthy d.code = true)
    (h3 : d.state = some genState) :
    connect_etsy genState (.delivered d) (.ok tok) =
      ⟨⟨true, none, some tok.expires_at⟩,
       true, true, true, some tok.access_token, true,
       some (tok.access_token, tok.expires_at)⟩ := by
  simp only [connect_etsy]
  rw [if_neg (by simp [h1]), if_neg (by simp [h2]), if_neg (by simp [h3])]

theorem do_GET_recorded_inv (qc qs qe : Option String) (d : CallbackData)
    (h : (do_GET qc qs qe).recorded = some d) :
    (truthy qe = true ∧ d = ⟨none, none, qe⟩) ∨
    (truthy qe = false ∧ truthy qc = true ∧ d = ⟨qc, qs, none⟩) := by
  unfold do_GET at h
  by_cases h1 : truthy qe = true
  · left
    rw [if_pos h1] at h
    exact ⟨h1, (Option.some_inj.mp h).symm⟩
  · right
    rw [if_neg h1] at h
    by_cases h2 : truthy qc = true
    · rw [if_pos h2] at h
      exact ⟨by simpa using h1, h2, (Option.some_inj.mp h).symm⟩
    · rw [if_neg h2] at h
      simp at h

/-! ## Claim theorems -/

/--
C2: for every 32-byte random input, `generate_pkce_pair` returns a challenge
equal to the URL-safe base64 no-padding encoding of the SHA-256 digest of the
UTF-8 bytes of the verifier, and a verifier that is the URL-safe base64
no-padding encoding of those 32 bytes, of length exactly 43, hence within
the PKCE bound of 43 to 128 characters.
-/
theorem pkce_pair_correct (bs : List Nat) (hlen : bs.length = 32)
    (_hbytes : ∀ b ∈ bs, b < 256) :
    (generate_pkce_pair bs).2 =
      b64urlNoPad (sha256 (utf8Encode (generate_pkce_pair bs).1)) ∧
    (generate_pkce_pair bs).1 = b64urlNoPad bs ∧
    (generate_pkce_pair bs).1.length = 43 ∧
    43 ≤ (generate_pkce_pair bs).1.length ∧ (generate_pkce_pair bs).1.length ≤ 128 := by
  have hv : (generate_pkce_pair bs).1 = b64urlNoPad bs := rfl
  have h43 : (generate_pkce_pair bs).1.length = 43 := by
    rw [hv]
    exact length_b64urlNoPad_of_32 bs hlen
  exact ⟨rfl, hv, h43, by omega, by omega⟩

/--
Witness for C2 at the all-zero 32-byte input.
-/
theorem pkce_pair_correct_witness :
    (generate_pkce_pair (List.replicate 32 0)).2 =
      b64urlNoPad (sha256 (utf8Encode (generate_pkce_pair (List.replicate 32 0)).1)) ∧
    (generate_pkce_pair (List.replicate 32 0)).1 = b64urlNoPad (List.replicate 32 0) ∧
    (generate_pkce_pair (List.replicate 32 0)).1.length = 43 ∧
    43 ≤ (generate_pkce_pair (List.replicate 32 0)).1.length ∧
    (generate_pkce_pair (List.replicate 32 0)).1.length ≤ 128 :=
  pkce_pair_correct (List.replicate 32 0) (by decide) (by decide)

/--
C1: whenever the callback listener delivers a recorded result that carries a
code but whose state differs from the state generated for the attempt,
`connect_etsy` returns the CSRF-mismatch failure, never invokes the token
exchange, and leaves the session token and client absent.
-/
theorem connect_csrf_mismatch_rejected (qc qs qe : Option String) (d : CallbackData)
    (genState : String) (exchange : Except String TokenRecord)
    (hrec : (do_GET qc qs qe).recorded = some d)
    (hcode : truthy d.code = true)
    (hstate : d.state ≠ some genState) :
    (connect_etsy genState (.delivered d) exchange).result.success = false ∧
    (connect_etsy genState (.delivered d) exchange).result.error =
      some "State mismatch - possible CSRF attack" ∧
    (connect_etsy genState (.delivered d) exchange).exchangeInvoked = false ∧
    (connect_etsy genState (.delivered d) exchange).session_token = none ∧
    (connect_etsy genState (.delivered d) exchange).clientInitialized = false := by
  have herr : truthy d.error = false := by
    rcases do_GET_recorded_inv qc qs qe d hrec with ⟨h1, hd⟩ | ⟨h1, h2, hd⟩
    · rw [hd] at hcode
      simp [truthy] at hcode
    · rw [hd]
      rfl
  rw [connect_etsy_state_mismatch genState d exchange herr hcode hstate]
  exact ⟨rfl, rfl, rfl, rfl, rfl⟩

/-- Witness for C1: a delivered code with state X against generated state Y. -/
theorem connect_csrf_mismatch_rejected_witness :
    (connect_etsy "Y" (.delivered ⟨some "abc123", some "X", none⟩)
        (.ok ⟨"tok_1", 3600, "Bearer"⟩)).result.success = false ∧
    (connect_etsy "Y" (.delivered ⟨some "abc123", some "X", none⟩)
        (.ok ⟨"tok_1", 3600, "Bearer"⟩)).result.error =
      some "State mismatch - possible CSRF attack" ∧
    (connect_etsy "Y" (.delivered ⟨some "abc123", some "X", none⟩)
        (.ok ⟨"tok_1", 3600, "Bearer"⟩)).exchangeInvoked = false ∧
    (connect_etsy "Y" (.delivered ⟨some "abc123", some "X", none⟩)
        (.ok ⟨"tok_1", 3600, "Bearer"⟩)).session_token = none ∧
    (connect_etsy "Y" (.delivered ⟨some "abc123", some "X", none⟩)
        (.ok ⟨"tok_1", 3600, "Bearer"⟩)).clientInitialized = false :=
  connect_csrf_mismatch_rejected (some "abc123") (some "X") none
    ⟨some "abc123", some "X", none⟩ "Y" (.ok ⟨"tok_1", 3600, "Bearer"⟩)
    rfl rfl (by decide)

/--
C3: on every path of `connect_etsy` after the listener has started — timeout,
provider error, missing code, state mismatch, exchange failure, and success —
the listener is stopped before returning; in particular on the timeout of the
300-second wait the result is the timeout failure with no session token set.
-/
theorem connect_always_stops_listener (genState : String) (outcome : CallbackOutcome)
    (exchange : Except String TokenRecord) :
    (connect_etsy genState outcome exchange).listenerStarted = true ∧
    (connect_etsy genState outcome exchange).listenerStopped = true ∧
    (outcome = .timeout →
      (connect_etsy genState outcome exchange).result =
        ⟨false, some "Authorization timed out. Please try again.", none⟩ ∧
      (connect_etsy genState outcome exchange).session_token = none) ∧
    connectWaitTimeoutSeconds = 300 := by
  cases outcome with
  | timeout => exact ⟨rfl, rfl, fun _ => ⟨rfl, rfl⟩, rfl⟩
  | delivered d =>
    have hse : (connect_etsy genState (.delivered d) exchange).listenerStarted = true ∧
        (connect_etsy genState (.delivered d) exchange).listenerStopped = true := by
      by_cases h1 : truthy d.error = true
      · rw [connect_etsy_provider_error genState d exchange h1]
        exact ⟨rfl, rfl⟩
      · have h1f : truthy d.error = false := by simpa using h1
        by_cases h2 : truthy d.code = true
        · by_cases h3 : d.state = some genState
          · cases exchange with
            | error msg =>
              rw [connect_etsy_exchange_error genState d msg h1f h2 h3]
              exact ⟨rfl, rfl⟩
            | ok tok =>
              rw [connect_etsy_exchange_ok genState d tok h1f h2 h3]
              exact ⟨rfl, rfl⟩
          · rw [connect_etsy_state_mismatch genState d exchange h1f h2 h3]
            exact ⟨rfl, rfl⟩
        · rw [connect_etsy_missing_code genState d exchange h1f (by simpa using h2)]
          exact ⟨rfl, rfl⟩
    exact ⟨hse.1, hse.2, by simp, rfl⟩

/-- Witness for C3 on the timeout path. -/
theorem connect_always_stops_listener_witness :
    (connect_etsy "S" .timeout (.error "boom")).listenerStopped = true ∧
    (connect_etsy "S" .timeout (.error "boom")).result =
      ⟨false, some "Authorization timed out. Please try again.", none⟩ ∧
    (connect_etsy "S" .timeout (.error "boom")).session_token = none :=
  ⟨(connect_always_stops_listener "S" .timeout (.error "boom")).2.1,
   (connect_always_stops_listener "S" .timeout (.error "boom")).2.2.1 rfl⟩

/--
C4 counterexample: a callback request carrying neither code nor error renders
the HTTP 400 invalid-request page but records no result at all — nothing is
delivered to the waiter — and the in-flight `connect_etsy` can therefore only
finish by the timeout failure, which is not the missing-code failure.
-/
theorem missing_code_no_result_cex :
    (do_GET none none none).status = 400 ∧
    (do_GET none none none).page = .invalidPage ∧
    (do_GET none none none).recorded = none ∧
    (connect_etsy "S" .timeout (.ok ⟨"tok_1", 3600, "Bearer"⟩)).result.error =
      some "Authorization timed out. Please try again." ∧
    (connect_etsy "S" .timeout (.ok ⟨"tok_1", 3600, "Bearer"⟩)).result.error ≠
      some "No authorization code received" := by
  decide

/--
C4 (amended): on a callback request with neither code nor error the listener
renders the HTTP 400 invalid-request page and invokes no callback, so no
result is recorded; the waiter is never released by such a request and the
in-flight `connect_etsy` fails with the timeout error once the wait elapses;
the missing-code failure of `connect_etsy` is unreachable from any result the
listener actually records.
-/
theorem missing_code_renders_invalid_and_times_out :
    (∀ qs : Option String, do_GET none qs none = ⟨400, .invalidPage, none⟩) ∧
    (∀ (genState : String) (exchange : Except String TokenRecord),
      (connect_etsy genState .timeout exchange).result =
        ⟨false, some "Authorization timed out. Please try again.", none⟩ ∧
      (connect_etsy genState .timeout exchange).listenerStopped = true) ∧
    (∀ (qc qs qe : Option String) (d : CallbackData) (genState : String)
        (exchange : Except String TokenRecord),
      (do_GET qc qs qe).recorded = some d →
      (connect_etsy genState (.delivered d) exchange).result.error ≠
        some "No authorization code received") := by
  refine ⟨fun qs => rfl, fun genState exchange => ⟨rfl, rfl⟩, ?_⟩
  intro qc qs qe d genState exchange hrec
  rcases do_GET_recorded_inv qc qs qe d hrec with ⟨h1, hd⟩ | ⟨h1, h2, hd⟩
  · have he : truthy d.error = true := by rw [hd]; exact h1
    rw [connect_etsy_provider_error genState d exchange he]
    simp only
    intro hcontra
    exact authorization_failed_ne_missing_code _ (Option.some_inj.mp hcontra)
  · have he : truthy d.error = false := by rw [hd]; rfl
    have hc : truthy d.code = true := by rw [hd]; exact h2
    by_cases h3 : d.state = some genState
    · cases exchange with
      | error msg =>
        rw [connect_etsy_exchange_error genState d msg he hc h3]
        simp only
        intro hcontra
        exact authorization_failed_ne_missing_code _ (Option.some_inj.mp hcontra)
      | ok tok =>
        rw [connect_etsy_exchange_ok genState d tok he hc h3]
        simp
    · rw [connect_etsy_state_mismatch genState d exchange he hc h3]
      simp

/-- Witness for C4 (amended) on a concrete recorded success result. -/
theorem missing_code_renders_invalid_and_times_out_witness :
    do_GET none none none = ⟨400, .invalidPage, none⟩ ∧
    (connect_etsy "S" (.delivered ⟨some "abc", some "s", none⟩) (.error "bad")).result.error ≠
      some "No authorization code received" :=
  ⟨missing_code_renders_invalid_and_times_out.1 none,
   missing_code_renders_invalid_and_times_out.2.2 (some "abc") (some "s") none
     ⟨some "abc", some "s", none⟩ "S" (.error "bad") rfl⟩

/--
C5: on a 2xx token-endpoint response, `exchange_code_for_token` returns the
record whose access token is the access_token field of the body (and fails
when that field is absent), whose expiry is the current UTC time plus the
expires_in of the body defaulting to 3600 seconds, and whose token type
defaults to Bearer when absent.
-/
theorem exchange_success_fields (resp : HttpResponse) (now : Nat)
    (h1 : 200 ≤ resp.status) (h2 : resp.status < 300) :
    (∀ tok, resp.body.access_token = some tok →
      exchange_code_for_token resp now =
        .ok ⟨tok, now + resp.body.expires_in.getD 3600, resp.body.token_type.getD "Bearer"⟩) ∧
    (resp.body.access_token = none →
      exchange_code_for_token resp now = .error "KeyError: access_token") := by
  constructor
  · intro tok htok
    simp [exchange_code_for_token, h1, h2, htok]
  · intro htok
    simp [exchange_code_for_token, h1, h2, htok]

/-- Witness for C5 with a minimal 200 response carrying only an access token. -/
theorem exchange_success_fields_witness :
    exchange_code_for_token ⟨200, ⟨some "tok_1", none, none⟩⟩ 1000 =
      .ok ⟨"tok_1", 4600, "Bearer"⟩ := by
  have h := (exchange_success_fields ⟨200, ⟨some "tok_1", none, none⟩⟩ 1000
    (by decide) (by decide)).1 "tok_1" rfl
  simpa using h

/--
C6 counterexample: a stored pair whose metadata has expired (`expires_at = 0`
at current time 100) but whose access-token entry is the empty string is
treated as absent without being purged — `load_token_from_keyring` returns
absent yet leaves both entries in storage, because `if not access_token`
returns early before the expiry check can delete them.
-/
theorem load_expired_not_purged_cex :
    (load_token_from_keyring 100 ⟨some "", some ⟨some 0⟩⟩).1 = none ∧
    (load_token_from_keyring 100 ⟨some "", some ⟨some 0⟩⟩).2 = ⟨some "", some ⟨some 0⟩⟩ ∧
    (load_token_from_keyring 100 ⟨some "", some ⟨some 0⟩⟩).2.access_token ≠ none ∧
    (0 : Nat) ≤ 100 := by
  decide

/--
C6 (amended): for every stored record with a non-empty access token whose
expires_at is at or before the current UTC time, `load_token_from_keyring`
returns absent and deletes both stored entries as a side effect.
-/
theorem load_expired_purges (st : KeyringState) (tok : String) (exp now : Nat)
    (hne : tok ≠ "") (htok : st.access_token = some tok)
    (hmd : st.token_metadata = some ⟨some exp⟩) (hexp : exp ≤ now) :
    load_token_from_keyring now st = (none, ⟨none, none⟩) := by
  simp [load_token_from_keyring, htok, hmd, hne, hexp, delete_token_from_keyring]

/-- Witness for C6 (amended) at a concrete expired record. -/
theorem load_expired_purges_witness :
    load_token_from_keyring 100 ⟨some "abc", some ⟨some 50⟩⟩ = (none, ⟨none, none⟩) :=
  load_expired_purges ⟨some "abc", some ⟨some 50⟩⟩ "abc" 50 100
    (by decide) rfl rfl (by decide)

/--
C9 counterexample: saving the empty-string access token with a strictly
future expiry (100, at current time 0) and then loading returns absent, not a
record equal to what was saved — `load_token_from_keyring` treats the falsy
empty token as missing.
-/
theorem save_load_empty_token_cex :
    (load_token_from_keyring 0 (save_token_to_keyring ⟨none, none⟩ "" 100)).1 = none ∧
    (load_token_from_keyring 0 (save_token_to_keyring ⟨none, none⟩ "" 100)).1 ≠
      some ⟨"", some 100⟩ ∧
    (0 : Nat) < 100 := by
  decide

/--
C9 (amended): saving a non-empty access token with an expiry strictly in the
future and then loading returns a record equal to what was saved — the same
access token string and the same expires_at timestamp — the load performs no
write, and a second load while the record is still unexpired returns the same
record again.
-/
theorem save_then_load_roundtrip (st : KeyringState) (tok : String) (exp now now2 : Nat)
    (hne : tok ≠ "") (h1 : now < exp) (h2 : now2 < exp) :
    (load_token_from_keyring now (save_token_to_keyring st tok exp)).1 =
      some ⟨tok, some exp⟩ ∧
    (load_token_from_keyring now (save_token_to_keyring st tok exp)).2 =
      save_token_to_keyring st tok exp ∧
    (load_token_from_keyring now2
        (load_token_from_keyring now (save_token_to_keyring st tok exp)).2).1 =
      some ⟨tok, some exp⟩ := by
  have hn1 : ¬ exp ≤ now := by omega
  have hn2 : ¬ exp ≤ now2 := by omega
  refine ⟨?_, ?_, ?_⟩ <;>
    simp [load_token_from_keyring, save_token_to_keyring, hne, hn1, hn2]

/-- Witness for C9 (amended) at a concrete save-then-load round trip. -/
theorem save_then_load_roundtrip_witness :
    (load_token_from_keyring 1 (save_token_to_keyring ⟨none, none⟩ "abc" 100)).1 =
      some ⟨"abc", some 100⟩ ∧
    (load_token_from_keyring 2
        (load_token_from_keyring 1 (save_token_to_keyring ⟨none, none⟩ "abc" 100)).2).1 =
      some ⟨"abc", some 100⟩ :=
  ⟨(save_then_load_roundtrip ⟨none, none⟩ "abc" 100 1 2 (by decide) (by decide) (by decide)).1,
   (save_then_load_roundtrip ⟨none, none⟩ "abc" 100 1 2
      (by decide) (by decide) (by decide)).2.2⟩

/--
C10 counterexample: with the stored access token being the empty string and a
parsed metadata object with no expires_at field, `load_token_from_keyring`
returns absent rather than a record carrying the stored token — the falsy
empty token short-circuits before the metadata is consulted.
-/
theorem load_no_expiry_empty_token_cex :
    (load_token_from_keyring 5 ⟨some "", some ⟨none⟩⟩).1 = none ∧
    (load_token_from_keyring 5 ⟨some "", some ⟨none⟩⟩).1 ≠ some ⟨"", none⟩ := by
  decide

/--
C10 (amended): if storage contains a non-empty access token together with a
metadata entry that parses but has no expires_at field, the load performs no
expiry purge (the state is unchanged) and returns a record whose
access_token is the stored token and whose expires_at is absent.
-/
theorem load_missing_expiry_returns_token (st : KeyringState) (tok : String) (now : Nat)
    (hne : tok ≠ "") (htok : st.access_token = some tok)
    (hmd : st.token_metadata = some ⟨none⟩) :
    load_token_from_keyring now st = (some ⟨tok, none⟩, st) := by
  simp [load_token_from_keyring, htok, hmd, hne]

/-- Witness for C10 (amended) at a concrete no-expiry record. -/
theorem load_missing_expiry_returns_token_witness :
    load_token_from_keyring 7 ⟨some "abc", some ⟨none⟩⟩ =
      (some ⟨"abc", none⟩, ⟨some "abc", some ⟨none⟩⟩) :=
  load_missing_expiry_returns_token ⟨some "abc", some ⟨none⟩⟩ "abc" 7 (by decide) rfl rfl

/--
C8: for every callback request, when a non-empty error parameter is present —
even together with a code — the handler responds 400 with the error page and
records the result with absent code and state and that error; otherwise when
a non-empty code is present it responds 200 with the success page and records
the result with that code, the state as given, and no error.
-/
theorem do_GET_branches :
    (∀ (qc qs : Option String) (e : String), e ≠ "" →
      do_GET qc qs (some e) = ⟨400, .errorPage e, some ⟨none, none, some e⟩⟩) ∧
    (∀ (qs : Option String) (c : String), c ≠ "" →
      do_GET (some c) qs none = ⟨200, .successPage, some ⟨some c, qs, none⟩⟩) := by
  constructor
  · intro qc qs e he
    simp [do_GET, truthy, he]
  · intro qs c hc
    simp [do_GET, truthy, hc]

/-- Witness for C8 on an error callback and on a success callback. -/
theorem do_GET_branches_witness :
    do_GET (some "abc") (some "st") (some "access_denied") =
      ⟨400, .errorPage "access_denied", some ⟨none, none, some "access_denied"⟩⟩ ∧
    do_GET (some "abc") (some "st") none =
      ⟨200, .successPage, some ⟨some "abc", some "st", none⟩⟩ :=
  ⟨do_GET_branches.1 (some "abc") (some "st") "access_denied" (by decide),
   do_GET_branches.2 (some "st") "abc" (by decide)⟩

set_option maxRecDepth 4000 in
/--
C7: the authorization URL built by `get_authorization_url` carries exactly
the seven expected query fields in order, but the values are inserted
verbatim — `httpx.QueryParams(\x7bk: v\x7d).get(k)` returns the value
undecoded and unencoded — so the space-joined scope list and the redirect
URI appear with raw spaces, colons and slashes, not percent-encoded as the
standard URL query encoding (`build_authorization_url_spec`) would produce.
-/
theorem authorization_url_not_percent_encoded :
    get_authorization_url "key" "http://localhost:8477/callback" ["shops_r", "listings_r"]
        "CH" "ST" =
      "https://www.etsy.com/oauth/connect?response_type=code&client_id=key&redirect_uri=http://localhost:8477/callback&scope=shops_r listings_r&state=ST&code_challenge=CH&code_challenge_method=S256" ∧
    build_authorization_url_spec "key" "http://localhost:8477/callback"
        ["shops_r", "listings_r"] "CH" "ST" =
      "https://www.etsy.com/oauth/connect?response_type=code&client_id=key&redirect_uri=http%3A%2F%2Flocalhost%3A8477%2Fcallback&scope=shops_r+listings_r&state=ST&code_challenge=CH&code_challenge_method=S256" ∧
    get_authorization_url "key" "http://localhost:8477/callback" ["shops_r", "listings_r"]
        "CH" "ST" ≠
      build_authorization_url_spec "key" "http://localhost:8477/callback"
        ["shops_r", "listings_r"] "CH" "ST" := by
  refine ⟨by decide, by decide, by decide⟩

end EtsyMCP
